import Mathlib

/-!
Shallow embedding of the Bangumi provider adapter (`src/bgmal/bgm.py`) of the
hiromi repository, together with theorems settling the specification claims.

Network interaction is modelled by explicit oracles: a page-fetch oracle for the
paginated HTML collection listing, a per-subject detail oracle for the N+1
detail fetches, and response-code oracles for mutation requests.  Python
exceptions are modelled with `Except`/`Option`; the requests a method issues are
returned alongside its result so that frame conditions ("no mutation issued")
are expressible.  Machine integers do not overflow in the source (Python), so
`Nat`/`Int` are used directly.
-/

/-- Modelled from the spec: the `AnimeItem` record lives in `bgmal/api.py`,
which is not part of the provided sources.  The spec describes it as an
immutable value record with fields `title`, `id`, `episode` (total known
episode count), `status` (episodes watched so far), `score` (community score,
numeric or absent) and `userscore` (the user's own rating, numeric or absent).
Absent values are modelled with `Option`. -/
structure AnimeItem where
  title : String
  id : Nat
  episode : Nat
  status : Option Nat
  score : Option Int
  userscore : Option Int
deriving DecidableEq, Repr

/-- Modelled from the spec: the error taxonomy.  `loginFailed` is the
`LoginFailedException` defined in the absent `bgmal/api.py`; `transport` stands
for the generic HTTP error raised by `requests.Response.raise_for_status`. -/
inductive AuthError where
  | loginFailed
  | transport
deriving DecidableEq, Repr

/-- Response of `POST https://api.bgm.tv/auth?source=onAir`: the HTTP status
code and the two JSON fields the constructor reads (`none` models a missing
field, which makes the Python subscript raise inside the `try` block). -/
structure AuthResponse where
  statusCode : Nat
  username : Option String
  auth : Option String
deriving DecidableEq, Repr

namespace Bangumi

/-- Embedding of `Bangumi.__init__`: `raise_for_status` runs first, so an HTTP
error status (400–599) raises the generic transport error; only afterwards are
`output['username']` and `output['auth']` read inside a `try` whose handler
raises `LoginFailedException`.  On success the pair (uid, auth token) becomes
the session state. -/
def bangumi_init (resp : AuthResponse) : Except AuthError (String × String) :=
  if 400 ≤ resp.statusCode ∧ resp.statusCode < 600 then
    Except.error AuthError.transport
  else
    match resp.username, resp.auth with
    | some u, some a => Except.ok (u, a)
    | _, _ => Except.error AuthError.loginFailed

/-- Raw JSON entry of the search endpoint `GET /search/subject/{title}`:
the fields `search` reads.  `eps` is optional (`'eps' in raw`); `type` is the
provider media-type code (2 = anime). -/
structure RawSubject where
  name : String
  ratingScore : Int
  eps : Option Nat
  id : Nat
  type : Int
deriving DecidableEq, Repr

/-- Query parameters of the single search request issued by `search`. -/
def search_request_params : List (String × String) :=
  [("responseGroup", "large"), ("max_results", "11"), ("start", "0")]

/-- Modelled from the spec: embedding of the nested `raw_to_AnimeItem`.  The
Python call is positional, `AnimeItem(raw['name'], raw['rating']['score'],
None, raw['eps'] if 'eps' in raw else 1, None, raw['id'])`; the constructor's
parameter order is defined in the absent `bgmal/api.py`, so the mapping onto
fields follows the spec: title, community score, absent user score, episode
count defaulting to 1, absent status, id. -/
def raw_to_AnimeItem (raw : RawSubject) : AnimeItem :=
  { title := raw.name
    score := some raw.ratingScore
    userscore := none
    episode := raw.eps.getD 1
    status := none
    id := raw.id }

/-- Embedding of `Bangumi.search`, applied to the raw result list returned by
the provider.  The Python code is
`raw_to_AnimeItem(next((raw for raw in get_raw_result() if raw['type'] == 2), None))`:
when no entry has type 2, `next` yields `None` and `raw_to_AnimeItem` then
evaluates `None['name']`, raising a `TypeError`; the error branch models that
exception. -/
def search (raws : List RawSubject) : Except String AnimeItem :=
  match raws.find? (fun r => r.type == 2) with
  | some raw => Except.ok (raw_to_AnimeItem raw)
  | none => Except.error "TypeError: NoneType object is not subscriptable"

/-- Decimal-digit run parse: `some` of the value when every character is a
digit and the run is nonempty, `none` otherwise. -/
def pyDigits (cs : List Char) : Option Nat :=
  match cs with
  | [] => none
  | _ =>
    if cs.all (fun c => c.isDigit) then
      some (cs.foldl (fun n c => 10 * n + (c.toNat - 48)) 0)
    else none

/-- Semantics of the Python builtin `int` applied to a string: an optional
sign followed by at least one decimal digit yields the corresponding integer;
any other shape raises a `ValueError`, modelled by `none`. -/
def pyInt? (s : String) : Option Int :=
  match s.data with
  | '-' :: rest => (pyDigits rest).map (fun n => -(n : Int))
  | '+' :: rest => (pyDigits rest).map (fun n => (n : Int))
  | cs => (pyDigits cs).map (fun n => (n : Int))

/-- Embedding of the nested `score` helper of `Bangumi._bgmanime`.  The Python
code reads the class-token list of the element with class `starsinfo`, takes
`starsinfo[0] if starsinfo[0] != 'starsinfo' else starsinfo[-1]` and returns
`int(stars[6:])`.  An empty token list (IndexError) or a non-numeric remainder
after dropping six characters (ValueError) raises, modelled by `none`. -/
def score (tokens : List String) : Option Int :=
  match tokens with
  | [] => none
  | t0 :: rest =>
    let stars := if t0 ≠ "starsinfo" then t0 else (t0 :: rest).getLastD ""
    pyInt? (stars.drop 6)

/-- Entry parsed from one `li.item` block of the collection listing page: the
optional `grey`-class title span, the `l`-class title link text, the class
tokens of the `starsinfo` element, and the `id` attribute of the `li` (of the
shape `item_{subjectId}`). -/
structure ListEntry where
  grey : Option String
  l : String
  starsClasses : List String
  idAttr : String
deriving DecidableEq, Repr

/-- JSON fields read from the per-subject detail endpoint
`GET /subject/{id}?responseGroup=simple`: episode count, community rating
score and subject id. -/
structure DetailData where
  eps : Nat
  ratingScore : Int
  id : Nat
deriving DecidableEq, Repr

/-- Embedding of the nested `title` helper of `Bangumi._bgmanime`: the
`grey`-class span's text when present, otherwise the `l`-class link text. -/
def titleOf (entry : ListEntry) : String :=
  match entry.grey with
  | some s => s
  | none => entry.l

/-- Embedding of `Bangumi._bgmanime`.  `detail` is the oracle for the
per-item N+1 fetch, keyed by the last `_`-separated component of the entry's
`id` attribute.  The detail data determine episode (0 mapped to 1), status
(set to the episode count), score and id; the listing page supplies title and
the user's score, whose parse failure raises (error branch). -/
def bgmanime (detail : String → DetailData) (entry : ListEntry) :
    Except String AnimeItem :=
  match score entry.starsClasses with
  | none => Except.error "ValueError: invalid literal for int"
  | some us =>
    let d := detail ((entry.idAttr.splitOn "_").getLastD "")
    let ep := if d.eps ≠ 0 then d.eps else 1
    Except.ok
      { title := titleOf entry
        userscore := some us
        episode := ep
        status := some ep
        score := some d.ratingScore
        id := d.id }

/-- One fetched collection listing page: its `li.item` entries and the string
of the last element of class `p` inside the `page_inner` pagination control. -/
structure Page where
  items : List ListEntry
  lastPageControl : String
deriving DecidableEq, Repr

/-- Embedding of the nested `has_next_page` helper of `Bangumi.watched_list`:
the page has a next page iff the last pagination control's label is the
next-page marker `››`. -/
def has_next_page (pg : Page) : Bool :=
  pg.lastPageControl == "››"

/-- Sequential parse of the entries of one page, in in-page order; the first
raised exception aborts the whole call, as in the Python `for` loop. -/
def parse_items (detail : String → DetailData) :
    List ListEntry → Except String (List AnimeItem)
  | [] => Except.ok []
  | e :: rest =>
    match bgmanime detail e with
    | Except.error err => Except.error err
    | Except.ok it =>
      match parse_items detail rest with
      | Except.error err => Except.error err
      | Except.ok its => Except.ok (it :: its)

/-- Embedding of the `while True` pagination loop of `Bangumi.watched_list`,
starting at the given page number: fetch the page, parse its items, stop when
the next-page marker is absent, else continue with the next page.  The loop
has no bound in the source; `fuel` bounds the recursion, and exhausting it
models non-termination.  The returned pair records the page numbers fetched
(in order) and the accumulated parsed items. -/
def watched_pages (fetch : Nat → Page) (detail : String → DetailData) :
    Nat → Nat → Except String (List Nat × List AnimeItem)
  | 0, _ => Except.error "fuel exhausted"
  | fuel + 1, page =>
    let pg := fetch page
    match parse_items detail pg.items with
    | Except.error err => Except.error err
    | Except.ok parsed =>
      if has_next_page pg then
        match watched_pages fetch detail fuel (page + 1) with
        | Except.error err => Except.error err
        | Except.ok (ps, items) => Except.ok (page :: ps, parsed ++ items)
      else
        Except.ok ([page], parsed)

/-- Embedding of `Bangumi.watched_list`: run the pagination loop from
page 1. -/
def watched_list (fetch : Nat → Page) (detail : String → DetailData)
    (fuel : Nat) : Except String (List Nat × List AnimeItem) :=
  watched_pages fetch detail fuel 1

/-- Raw JSON entry of `GET /user/{uid}/collection?cat=watching`: the fields
`watching_list` reads.  `eps` is optional (`'eps' in item['subject']`). -/
structure CollectionItem where
  ep_status : Nat
  subjectEps : Option Nat
  subjectId : Nat
  subjectName : String
deriving DecidableEq, Repr

/-- Per-entry mapping of `Bangumi.watching_list`: status from `ep_status`,
episode from `subject.eps` with placeholder 13 when absent, no scores. -/
def watching_item (item : CollectionItem) : AnimeItem :=
  { status := some item.ep_status
    episode := item.subjectEps.getD 13
    userscore := none
    score := none
    id := item.subjectId
    title := item.subjectName }

/-- Embedding of `Bangumi.watching_list`, applied to the JSON array returned
by the collection endpoint. -/
def watching_list (data : List CollectionItem) : List AnimeItem :=
  data.map watching_item

/-- Embedding of `Bangumi.mark_as_watched`: the body is `pass`, so the call
returns Python `None` (no meaningful boolean) and issues no request; the
second component is the list of mutation requests issued. -/
def mark_as_watched (_item : AnimeItem) : Option Bool × List Nat :=
  (none, [])

/-- Selection step of `Bangumi.increment_status`: the full episode-id list is
sorted in place (`all_episodes.sort()`, ascending) and the first id in sorted
order that is not in the watched list is selected
(`next(filter(lambda x: x not in watched, all_episodes), None)`). -/
def next_unwatched (watched allEps : List Nat) : Option Nat :=
  (List.insertionSort (· ≤ ·) allEps).find? (fun x => ! watched.contains x)

/-- Embedding of `Bangumi.increment_status`, applied to the watched episode-id
list, the full episode-id list (as returned by the two endpoints) and an
oracle giving the JSON `code` of the mark-watched POST response.  If no
unwatched episode exists the call returns `False` with no mutation; otherwise
the mutation POST for exactly the selected id is issued and the call returns
`True` iff the response code is 200.  The second component records the episode
ids for which a mutation POST was issued. -/
def increment_status (watched allEps : List Nat) (postCode : Nat → Int) :
    Bool × List Nat :=
  match next_unwatched watched allEps with
  | none => (false, [])
  | some ep => (postCode ep == 200, [ep])

end Bangumi

/-! ## Claim theorems -/

/-- C8: for every `AnimeItem` input, `mark_as_watched` is a no-op: it performs
no network request (the issued-request list is empty), changes no state, and
returns no meaningful result (Python `None`). -/
theorem C8_mark_as_watched_noop (item : AnimeItem) :
    Bangumi.mark_as_watched item = (none, []) := rfl

/-- C10: every `AnimeItem` returned by `watching_list` has `score = none` and
`userscore = none`, the result is the entrywise image of `watching_item`, and
an entry whose subject record omits `eps` is mapped to episode 13. -/
theorem C10_watching_list_fields (data : List Bangumi.CollectionItem) :
    (∀ it ∈ Bangumi.watching_list data, it.score = none ∧ it.userscore = none) ∧
    Bangumi.watching_list data = data.map Bangumi.watching_item ∧
    (∀ raw : Bangumi.CollectionItem, raw.subjectEps = none →
      (Bangumi.watching_item raw).episode = 13) := by
  refine ⟨?_, rfl, ?_⟩
  · intro it hit
    simp only [Bangumi.watching_list, List.mem_map] at hit
    obtain ⟨raw, -, rfl⟩ := hit
    exact ⟨rfl, rfl⟩
  · intro raw h
    simp [Bangumi.watching_item, h]

/-- C10 witness: evaluation at a concrete collection entry without `eps`. -/
theorem C10_watching_list_fields_witness :
    (Bangumi.watching_item ⟨3, none, 7, "x"⟩).score = none ∧
    (Bangumi.watching_item ⟨3, none, 7, "x"⟩).userscore = none ∧
    (Bangumi.watching_item ⟨3, none, 7, "x"⟩).episode = 13 := by
  have h := C10_watching_list_fields [⟨3, none, 7, "x"⟩]
  have hm : Bangumi.watching_item ⟨3, none, 7, "x"⟩ ∈
      Bangumi.watching_list [⟨3, none, 7, "x"⟩] := by
    simp [Bangumi.watching_list]
  exact ⟨(h.1 _ hm).1, (h.1 _ hm).2, h.2.2 _ rfl⟩

/-- C2 (code bug): when the raw result list has no entry of the anime type
(type code 2), `search` does not return an explicit not-found value: the
Python code passes `None` into `raw_to_AnimeItem`, which subscripts it and
raises a `TypeError`.  Evaluated at an empty result list and at a list holding
only a non-anime (type 1) entry. -/
theorem C2_search_no_anime_raises :
    Bangumi.search [] =
      Except.error "TypeError: NoneType object is not subscriptable" ∧
    Bangumi.search [⟨"book", 7, none, 5, 1⟩] =
      Except.error "TypeError: NoneType object is not subscriptable" := by
  exact ⟨rfl, rfl⟩

/-- C5 counterexample: a failed authentication request (HTTP 401, as a
provider typically answers invalid credentials) raises the generic transport
error from `raise_for_status`, not `LoginFailedException` — `raise_for_status`
runs before the field-reading `try` block. -/
theorem C5_login_error_counterexample :
    Bangumi.bangumi_init ⟨401, none, none⟩ = Except.error AuthError.transport ∧
    Bangumi.bangumi_init ⟨401, none, none⟩ ≠ Except.error AuthError.loginFailed := by
  constructor
  · rfl
  · intro h
    exact absurd (Except.error.inj h) (by decide)

/-- C5 (amended): only when the authentication request itself succeeds
(status below 400) and the response is missing the expected `username` or
`auth` field does construction fail with `LoginFailedException`; an HTTP
error status (400–599) surfaces as the generic transport error instead, and
the two errors are distinct. -/
theorem C5_login_failed_amended :
    (∀ resp : AuthResponse, resp.statusCode < 400 →
        resp.username = none ∨ resp.auth = none →
        Bangumi.bangumi_init resp = Except.error AuthError.loginFailed) ∧
    (∀ resp : AuthResponse, 400 ≤ resp.statusCode → resp.statusCode < 600 →
        Bangumi.bangumi_init resp = Except.error AuthError.transport) ∧
    AuthError.loginFailed ≠ AuthError.transport := by
  refine ⟨?_, ?_, by decide⟩
  · intro resp hc hmiss
    obtain ⟨c, u, a⟩ := resp
    have hc' : c < 400 := hc
    have hmiss' : u = none ∨ a = none := hmiss
    simp only [Bangumi.bangumi_init]
    rw [if_neg (by omega)]
    rcases hmiss' with h | h
    · subst h; rfl
    · subst h; cases u <;> rfl
  · intro resp hlo hhi
    obtain ⟨c, u, a⟩ := resp
    have hlo' : 400 ≤ c := hlo
    have hhi' : c < 600 := hhi
    simp only [Bangumi.bangumi_init]
    rw [if_pos (by omega)]

/-- C5 witness: evaluation at a successful response missing `username` and at
a 500 response. -/
theorem C5_login_failed_amended_witness :
    Bangumi.bangumi_init ⟨200, none, some "t"⟩ = Except.error AuthError.loginFailed ∧
    Bangumi.bangumi_init ⟨500, some "u", some "t"⟩ = Except.error AuthError.transport :=
  ⟨C5_login_failed_amended.1 ⟨200, none, some "t"⟩ (by decide) (Or.inl rfl),
   C5_login_failed_amended.2.1 ⟨500, some "u", some "t"⟩ (by decide) (by decide)⟩

/-- C4 counterexample: a fallback class token `"starsinfo9"` does not yield
score 9: the code strips only six characters (`stars[6:]`), leaving `"nfo9"`,
whose integer parse raises a `ValueError`. -/
theorem C4_score_fallback_counterexample :
    Bangumi.score ["starsinfo", "starsinfo9"] = none ∧
    Bangumi.score ["starsinfo", "starsinfo9"] ≠ some 9 := by
  exact ⟨by decide, by decide⟩

/-- C4 (amended): when the primary (first) score-class token is the
placeholder `"starsinfo"`, the parsed score is read from the fallback (last)
token by dropping its first six characters and parsing the remainder as an
integer; a six-character-prefixed fallback token such as `"sstars9"` yields
score 9. -/
theorem C4_score_fallback_amended :
    (∀ rest : List String, rest ≠ [] →
        Bangumi.score ("starsinfo" :: rest) =
          Bangumi.pyInt? ((("starsinfo" :: rest).getLastD "").drop 6)) ∧
    Bangumi.score ["starsinfo", "sstars9"] = some 9 := by
  refine ⟨?_, by decide⟩
  intro rest _
  simp [Bangumi.score]

/-- C4 witness: evaluation of the amended statement at the concrete token
list `["starsinfo", "sstars9"]`. -/
theorem C4_score_fallback_amended_witness :
    Bangumi.score ("starsinfo" :: ["sstars9"]) =
      Bangumi.pyInt? ((("starsinfo" :: ["sstars9"]).getLastD "").drop 6) ∧
    Bangumi.score ["starsinfo", "sstars9"] = some 9 :=
  ⟨C4_score_fallback_amended.1 ["sstars9"] (by simp),
   C4_score_fallback_amended.2⟩

/-! ## Helper lemmas -/

/-- A successful `find?` splits the list at the found element, with the
predicate false on everything before it. -/
theorem find?_split {α : Type} (p : α → Bool) :
    ∀ (l : List α) (a : α), l.find? p = some a →
      p a = true ∧ ∃ l₁ l₂, l = l₁ ++ a :: l₂ ∧ ∀ x ∈ l₁, p x = false := by
  intro l
  induction l with
  | nil => intro a h; simp [List.find?] at h
  | cons b t ih =>
    intro a h
    by_cases hb : p b
    · rw [List.find?_cons_of_pos _ hb] at h
      obtain rfl := Option.some.inj h
      exact ⟨hb, [], t, rfl, by simp⟩
    · rw [List.find?_cons_of_neg _ (by simpa using hb)] at h
      obtain ⟨hpa, l₁, l₂, heq, hall⟩ := ih a h
      refine ⟨hpa, b :: l₁, l₂, by rw [heq, List.cons_append], ?_⟩
      intro x hx
      rcases List.mem_cons.mp hx with rfl | hx
      · simpa using hb
      · exact hall x hx

/-- On a list sorted by `≤`, a successful `find?` returns a minimal element
among those satisfying the predicate. -/
theorem find?_min_of_sorted {p : Nat → Bool} :
    ∀ {l : List Nat}, l.Sorted (· ≤ ·) → ∀ {a : Nat}, l.find? p = some a →
      ∀ y ∈ l, p y = true → a ≤ y := by
  intro l
  induction l with
  | nil => intro _ a h; simp [List.find?] at h
  | cons b t ih =>
    intro hs a h y hy hpy
    by_cases hb : p b
    · rw [List.find?_cons_of_pos _ hb] at h
      obtain rfl := Option.some.inj h
      rcases List.mem_cons.mp hy with rfl | hy
      · exact Nat.le_refl _
      · exact List.rel_of_sorted_cons hs y hy
    · rw [List.find?_cons_of_neg _ (by simpa using hb)] at h
      rcases List.mem_cons.mp hy with rfl | hy
      · exact absurd hpy (by simpa using hb)
      · exact ih hs.of_cons h y hy hpy

/-- C1: whenever the selection step finds a next unwatched episode,
`increment_status` issues the mark-watched mutation for exactly that id and
returns `True` iff the response code is 200; the selected id belongs to the
full episode-id list, is absent from the watched list, and is least among the
unwatched ids — i.e. the first id of the sorted full list absent from the
watched list. -/
theorem C1_increment_status_marks_first_unwatched
    (watched allEps : List Nat) (postCode : Nat → Int) (ep : Nat)
    (h : Bangumi.next_unwatched watched allEps = some ep) :
    Bangumi.increment_status watched allEps postCode =
      ((postCode ep == 200 : Bool), [ep]) ∧
    ep ∈ allEps ∧ ep ∉ watched ∧
    (∀ y ∈ allEps, y ∉ watched → ep ≤ y) ∧
    ((Bangumi.increment_status watched allEps postCode).1 = true ↔
      postCode ep = 200) := by
  have hrun : Bangumi.increment_status watched allEps postCode =
      ((postCode ep == 200 : Bool), [ep]) := by
    simp [Bangumi.increment_status, h]
  have hmem : ep ∈ allEps := by
    have := List.mem_of_find?_eq_some h
    simpa using this
  have hnw : ep ∉ watched := by
    have := List.find?_some h
    simpa using this
  refine ⟨hrun, hmem, hnw, ?_, ?_⟩
  · intro y hy hyw
    have hsorted : (List.insertionSort (· ≤ ·) allEps).Sorted (· ≤ ·) :=
      List.sorted_insertionSort _ allEps
    have hymem : y ∈ List.insertionSort (· ≤ ·) allEps := by simpa using hy
    exact find?_min_of_sorted hsorted h y hymem (by simpa using hyw)
  · rw [hrun]
    simp

/-- C1 witness: with full episode ids `[5, 1, 3]` and watched ids `[1, 3]`,
the sorted order is `[1, 3, 5]`, the selected episode is 5, the mutation is
issued exactly for id 5, and the call returns `True` when the response code
is 200. -/
theorem C1_increment_status_marks_first_unwatched_witness :
    Bangumi.increment_status [1, 3] [5, 1, 3] (fun _ => 200) = (true, [5]) ∧
    5 ∉ [1, 3] ∧ (∀ y ∈ [5, 1, 3], y ∉ [1, 3] → 5 ≤ y) := by
  have h := C1_increment_status_marks_first_unwatched [1, 3] [5, 1, 3]
    (fun _ => 200) 5 (by decide)
  exact ⟨h.1.trans (by decide), h.2.2.1, h.2.2.2.1⟩

/-- C6: when every id of the full episode-id list is already watched,
`increment_status` returns `False` and issues no mutation request. -/
theorem C6_increment_status_all_watched
    (watched allEps : List Nat) (postCode : Nat → Int)
    (h : ∀ x ∈ allEps, x ∈ watched) :
    Bangumi.increment_status watched allEps postCode = (false, []) := by
  have hnone : Bangumi.next_unwatched watched allEps = none := by
    rw [Bangumi.next_unwatched]
    rw [List.find?_eq_none]
    intro x hx
    have hx' : x ∈ allEps := by simpa using hx
    simp [h x hx']
  simp [Bangumi.increment_status, hnone]

/-- C6 witness: with watched ids `[1, 3, 5]` covering the full list
`[5, 1, 3]`, the call returns `False` with no mutation issued. -/
theorem C6_increment_status_all_watched_witness :
    Bangumi.increment_status [1, 3, 5] [5, 1, 3] (fun _ => 200) = (false, []) :=
  C6_increment_status_all_watched [1, 3, 5] [5, 1, 3] (fun _ => 200) (by decide)

/-- C7: the single search request bounds the result count to 11 candidates,
and when the raw result list has a first entry of the anime type (type code
2), `search` returns exactly that entry mapped by `raw_to_AnimeItem`, ignoring
every earlier non-anime entry, with episode count defaulting to 1 when the
provider omits `eps`. -/
theorem C7_search_first_anime
    (raws : List Bangumi.RawSubject) (raw : Bangumi.RawSubject)
    (h : raws.find? (fun r => r.type == 2) = some raw) :
    Bangumi.search raws = Except.ok (Bangumi.raw_to_AnimeItem raw) ∧
    raw.type = 2 ∧
    (∃ pre post, raws = pre ++ raw :: post ∧ ∀ x ∈ pre, x.type ≠ 2) ∧
    (raw.eps = none → (Bangumi.raw_to_AnimeItem raw).episode = 1) ∧
    ("max_results", "11") ∈ Bangumi.search_request_params := by
  refine ⟨by simp [Bangumi.search, h], ?_, ?_, ?_, by decide⟩
  · have := List.find?_some h
    simpa using this
  · obtain ⟨-, pre, post, heq, hall⟩ := find?_split _ raws raw h
    refine ⟨pre, post, heq, ?_⟩
    intro x hx
    have := hall x hx
    simpa using this
  · intro he
    simp [Bangumi.raw_to_AnimeItem, he]

/-- C7 witness: a mixed-type raw result list whose first anime-type entry
comes after a non-anime entry and omits `eps`. -/
theorem C7_search_first_anime_witness :
    Bangumi.search [⟨"book", 7, none, 5, 1⟩, ⟨"anime", 8, none, 6, 2⟩] =
      Except.ok (Bangumi.raw_to_AnimeItem ⟨"anime", 8, none, 6, 2⟩) ∧
    (Bangumi.raw_to_AnimeItem ⟨"anime", 8, none, 6, 2⟩).episode = 1 := by
  have h := C7_search_first_anime
    [⟨"book", 7, none, 5, 1⟩, ⟨"anime", 8, none, 6, 2⟩]
    ⟨"anime", 8, none, 6, 2⟩ (by decide)
  exact ⟨h.1, h.2.2.2.1 rfl⟩

/-- Run lemma for the pagination loop: starting at page `p`, when the
next-page marker is present on the first `m - 1` pages, absent on the `m`-th,
every page parses, and the fuel covers the `m` pages, the loop fetches exactly
the pages `p, p+1, …, p+m-1` and returns their parsed items concatenated in
page order. -/
theorem watched_pages_run (fetch : Nat → Bangumi.Page)
    (detail : String → Bangumi.DetailData) (out : Nat → List AnimeItem) :
    ∀ (m p fuel : Nat), 1 ≤ m → m ≤ fuel →
      (∀ i, p ≤ i → i < p + m - 1 → Bangumi.has_next_page (fetch i) = true) →
      Bangumi.has_next_page (fetch (p + m - 1)) = false →
      (∀ i, p ≤ i → i ≤ p + m - 1 →
        Bangumi.parse_items detail (fetch i).items = Except.ok (out i)) →
      Bangumi.watched_pages fetch detail fuel p =
        Except.ok (List.range' p m, ((List.range' p m).map out).flatten) := by
  intro m
  induction m with
  | zero => intro p fuel h1; omega
  | succ m ih =>
    intro p fuel _ hfuel hnext hlast hparse
    obtain ⟨f, rfl⟩ : ∃ f, fuel = f + 1 := ⟨fuel - 1, by omega⟩
    have hp : Bangumi.parse_items detail (fetch p).items = Except.ok (out p) :=
      hparse p (Nat.le_refl p) (by omega)
    rcases Nat.eq_zero_or_pos m with rfl | hm
    · have hl : Bangumi.has_next_page (fetch p) = false := by
        have := hlast; simpa using this
      simp [Bangumi.watched_pages, hp, hl, List.range']
    · have hn : Bangumi.has_next_page (fetch p) = true :=
        hnext p (Nat.le_refl p) (by omega)
      have hrec := ih (p + 1) f (by omega) (by omega)
        (by intro i h1 h2; exact hnext i (by omega) (by omega))
        (by have := hlast
            have he : p + 1 + m - 1 = p + (m + 1) - 1 := by omega
            rw [he]; exact this)
        (by intro i h1 h2; exact hparse i (by omega) (by omega))
      simp only [Bangumi.watched_pages, hp, hn, hrec, if_true]
      rw [List.range'_succ p m 1]
      simp

/-- C3: against a remote state serving pages `1..K` with the next-page marker
`››` as the last pagination control's label on pages `1..K-1` and not on page
`K`, `watched_list` fetches exactly the pages `1, 2, …, K` and returns the
concatenation of all parsed items, ordered by page number and, within each
page, by in-page order. -/
theorem C3_watched_list_pagination (fetch : Nat → Bangumi.Page)
    (detail : String → Bangumi.DetailData) (out : Nat → List AnimeItem)
    (K fuel : Nat) (hK : 1 ≤ K) (hfuel : K ≤ fuel)
    (hnext : ∀ p, 1 ≤ p → p < K → Bangumi.has_next_page (fetch p) = true)
    (hlast : Bangumi.has_next_page (fetch K) = false)
    (hparse : ∀ p, 1 ≤ p → p ≤ K →
      Bangumi.parse_items detail (fetch p).items = Except.ok (out p)) :
    Bangumi.watched_list fetch detail fuel =
      Except.ok (List.range' 1 K, ((List.range' 1 K).map out).flatten) := by
  rw [Bangumi.watched_list]
  apply watched_pages_run fetch detail out K 1 fuel hK hfuel
  · intro i h1 h2
    exact hnext i h1 (by omega)
  · have h : 1 + K - 1 = K := by omega
    rw [h]
    exact hlast
  · intro i h1 h2
    exact hparse i h1 (by omega)

/-- C3 witness: a two-page remote state (marker on page 1, absent on page 2)
with one entry per page; the adapter fetches pages `[1, 2]` and returns the
two parsed items in order. -/
theorem C3_watched_list_pagination_witness :
    Bangumi.watched_list
      (fun p => if p = 1
        then ⟨[⟨none, "t1", ["sstars8"], "item_1"⟩], "››"⟩
        else ⟨[⟨none, "t2", ["starsinfo", "sstars9"], "item_2"⟩], "x"⟩)
      (fun _ => ⟨12, 7, 42⟩) 2 =
      Except.ok ([1, 2],
        [⟨"t1", 42, 12, some 12, some 7, some 8⟩,
         ⟨"t2", 42, 12, some 12, some 7, some 9⟩]) := by
  have h := C3_watched_list_pagination
    (fun p => if p = 1
      then ⟨[⟨none, "t1", ["sstars8"], "item_1"⟩], "››"⟩
      else ⟨[⟨none, "t2", ["starsinfo", "sstars9"], "item_2"⟩], "x"⟩)
    (fun _ => ⟨12, 7, 42⟩)
    (fun p => if p = 1
      then [⟨"t1", 42, 12, some 12, some 7, some 8⟩]
      else [⟨"t2", 42, 12, some 12, some 7, some 9⟩])
    2 2 (by decide) (by decide)
    (by intro p h1 h2
        have hp : p = 1 := by omega
        subst hp
        decide)
    (by decide)
    (by intro p h1 h2
        interval_cases p <;> rfl)
  rw [h]
  rfl

/-- Every item successfully produced by `bgmanime` has its status equal to
its episode count, and an episode count of at least 1 (a reported count of 0
is mapped to 1). -/
theorem bgmanime_ok_inv (detail : String → Bangumi.DetailData)
    (e : Bangumi.ListEntry) (it : AnimeItem)
    (h : Bangumi.bgmanime detail e = Except.ok it) :
    it.status = some it.episode ∧ 1 ≤ it.episode := by
  rw [Bangumi.bgmanime] at h
  cases hsc : Bangumi.score e.starsClasses with
  | none => rw [hsc] at h; cases h
  | some us =>
    rw [hsc] at h
    simp only [] at h
    obtain rfl := (Except.ok.inj h).symm
    refine ⟨rfl, ?_⟩
    dsimp only
    split
    · omega
    · omega

/-- The invariant of `bgmanime_ok_inv` lifts to every item of a successfully
parsed page. -/
theorem parse_items_ok_inv (detail : String → Bangumi.DetailData) :
    ∀ (es : List Bangumi.ListEntry) (its : List AnimeItem),
      Bangumi.parse_items detail es = Except.ok its →
      ∀ it ∈ its, it.status = some it.episode ∧ 1 ≤ it.episode := by
  intro es
  induction es with
  | nil =>
    intro its h it hit
    rw [Bangumi.parse_items] at h
    obtain rfl := (Except.ok.inj h).symm
    cases hit
  | cons e rest ih =>
    intro its h it hit
    rw [Bangumi.parse_items] at h
    cases he : Bangumi.bgmanime detail e with
    | error err => rw [he] at h; cases h
    | ok it0 =>
      rw [he] at h
      cases hr : Bangumi.parse_items detail rest with
      | error err => rw [hr] at h; cases h
      | ok its0 =>
        rw [hr] at h
        obtain rfl := (Except.ok.inj h).symm
        rcases List.mem_cons.mp hit with rfl | hit
        · exact bgmanime_ok_inv detail e it he
        · exact ih its0 hr it hit

/-- The invariant lifts to every item accumulated by the pagination loop. -/
theorem watched_pages_ok_inv (fetch : Nat → Bangumi.Page)
    (detail : String → Bangumi.DetailData) :
    ∀ (fuel p : Nat) (ps : List Nat) (its : List AnimeItem),
      Bangumi.watched_pages fetch detail fuel p = Except.ok (ps, its) →
      ∀ it ∈ its, it.status = some it.episode ∧ 1 ≤ it.episode := by
  intro fuel
  induction fuel with
  | zero => intro p ps its h; cases h
  | succ f ih =>
    intro p ps its h it hit
    rw [Bangumi.watched_pages] at h
    cases hp : Bangumi.parse_items detail (fetch p).items with
    | error err => rw [hp] at h; cases h
    | ok parsed =>
      rw [hp] at h
      simp only [] at h
      by_cases hn : Bangumi.has_next_page (fetch p) = true
      · rw [if_pos hn] at h
        cases hr : Bangumi.watched_pages fetch detail f (p + 1) with
        | error err => rw [hr] at h; cases h
        | ok pr =>
          obtain ⟨ps2, its2⟩ := pr
          rw [hr] at h
          simp only [] at h
          have hits : parsed ++ its2 = its := congrArg Prod.snd (Except.ok.inj h)
          subst hits
          rcases List.mem_append.mp hit with hit | hit
          · exact parse_items_ok_inv detail _ parsed hp it hit
          · exact ih (p + 1) ps2 its2 hr it hit
      · rw [if_neg hn] at h
        have hits : parsed = its := congrArg Prod.snd (Except.ok.inj h)
        subst hits
        exact parse_items_ok_inv detail _ parsed hp it hit

/-- C9: every `AnimeItem` returned by `watched_list` satisfies
`status = some episode` and `episode ≥ 1`: the per-item detail fetch sets the
status to the fetched episode count and maps a reported count of 0 to 1. -/
theorem C9_watched_list_items_invariant (fetch : Nat → Bangumi.Page)
    (detail : String → Bangumi.DetailData) (fuel : Nat)
    (ps : List Nat) (its : List AnimeItem)
    (h : Bangumi.watched_list fetch detail fuel = Except.ok (ps, its)) :
    ∀ it ∈ its, it.status = some it.episode ∧ 1 ≤ it.episode := by
  rw [Bangumi.watched_list] at h
  exact watched_pages_ok_inv fetch detail fuel 1 ps its h

/-- C9 witness: evaluation on a one-page remote state whose detail record
reports an episode count of 0, mapped to episode 1 with status 1. -/
theorem C9_watched_list_items_invariant_witness :
    (AnimeItem.status ⟨"t1", 42, 1, some 1, some 7, some 8⟩ =
      some (AnimeItem.episode ⟨"t1", 42, 1, some 1, some 7, some 8⟩)) ∧
    1 ≤ AnimeItem.episode ⟨"t1", 42, 1, some 1, some 7, some 8⟩ := by
  have h := C9_watched_list_items_invariant
    (fun _ => ⟨[⟨none, "t1", ["sstars8"], "item_1"⟩], "x"⟩)
    (fun _ => ⟨0, 7, 42⟩) 1 [1]
    [⟨"t1", 42, 1, some 1, some 7, some 8⟩] (by rfl)
  exact h ⟨"t1", 42, 1, some 1, some 7, some 8⟩ (by simp)
